import Mathlib

/-!
Verification of the Derma-Assist-AI inference-orchestration core.

This file shallowly embeds the service code (`geminiService.ts` and its
variants `src/unnamed/part_000` / `src/unnamed/part_001`):

* `compressDims` — the resize arithmetic of `compressImage`;
* `stepAttempt` / `cascadeLoop` / `tryGroqAnalysis` — the model-cascade loop;
* `analyzeG` / `analyzeP1` — the `analyzeSkinImage` entry points of
  `geminiService.ts` and `part_001`.

JavaScript effects are modelled explicitly: a network attempt's outcome is a
value of `Attempt` supplied by an environment, a thrown JS value is either an
`Error` carried as its message string or the literal `null` (`Option String`,
with `none` for `null`), and a promise rejection is the `.error` case of
`Except`.  `alert`/`console` calls have no data flow and are not modelled.
-/

namespace DermaAssist

/-- A guidance list item: the model may return plain strings or
`AnalysisPoint`-shaped objects `{title, details}` (`src/types.ts`). -/
inductive Entry where
  | str (s : String)
  | point (title details : String)
deriving DecidableEq, Repr

/-- A record as returned by `analyzeSkinImage` or parsed from the model
reply.  Every field is optional because a JS object may lack it entirely
(`none` = the field is absent / `undefined`).  Mirrors the field list of
`SkinAnalysis` in `src/types.ts`. -/
structure SkinRecord where
  isSkin : Option Bool
  isHealthy : Option Bool
  diseaseName : Option String
  description : Option String
  symptoms : Option (List Entry)
  reasons : Option (List Entry)
  precautions : Option (List Entry)
  prevention : Option (List Entry)
  treatments : Option (List Entry)
  medicines : Option (List Entry)
  healingPeriod : Option String
deriving DecidableEq, Repr

/-- `message.content` of one chat-completion choice. -/
structure GMessage where
  content : String
deriving DecidableEq, Repr

/-- One element of the `choices` array of the response envelope. -/
structure GChoice where
  message : GMessage
deriving DecidableEq, Repr

/-- The parsed JSON body of a successful response
(`{ choices: [ { message: { content } } ] }`). -/
structure GroqData where
  choices : List GChoice
deriving DecidableEq, Repr

/-- Outcome of `await response.json()` on a 2xx response: the body either
parses to a `GroqData` value or the parse rejects with an error message. -/
inductive JsonBody where
  | parsed (data : GroqData)
  | malformed (msg : String)
deriving DecidableEq, Repr

/-- A resolved `fetch` response: its HTTP status, the text body as read by
`response.text()`, and the view of the body taken by `response.json()`. -/
structure HttpResp where
  status : Nat
  errText : String
  jsonBody : JsonBody
deriving DecidableEq, Repr

/-- Outcome of one `fetch` call: either the response resolves, or the fetch
itself rejects with a network-level error message. -/
inductive Attempt where
  | resp (r : HttpResp)
  | netFail (msg : String)
deriving DecidableEq, Repr

/-- `VISION_MODELS` of `geminiService.ts`. -/
def VISION_MODELS : List String :=
  ["llama-3.2-90b-vision-preview",
   "meta-llama/llama-4-scout-17b-16e-instruct",
   "llama-3.2-11b-vision-preview"]

/-- `hay` starts with `needle` (character lists). -/
def listStartsWith : List Char → List Char → Bool
  | [], _ => true
  | _ :: _, [] => false
  | a :: as, b :: bs => a == b && listStartsWith as bs

/-- `needle` occurs as a contiguous run inside `hay`. -/
def listHasSub (needle : List Char) : List Char → Bool
  | [] => listStartsWith needle []
  | c :: cs => listStartsWith needle (c :: cs) || listHasSub needle cs

/-- JS `msg.includes("API Key")`, the fatality test of the cascade's catch
block (`geminiService.ts` line 73). -/
def hasKeyMark (msg : String) : Bool :=
  listHasSub "API Key".data msg.data

/-- What one loop iteration of `tryGroqAnalysis` does after its own
`try`/`catch` has run: return the parsed body, re-throw the error out of the
whole cascade, or fall through to the next model with a (possibly updated)
`lastError`. -/
inductive StepRes where
  | done (d : GroqData)
  | abort (m : String)
  | advance (l : Option String)
deriving DecidableEq, Repr

/-- A `throw new Error(msg)` inside the loop body lands in the iteration's
own `catch (e)`: `lastError = e; if (e.message.includes("API Key")) throw e;`
so the cascade aborts only when the message carries the API-Key marker,
otherwise the loop advances with `lastError = e`. -/
def throwPath (msg : String) : StepRes :=
  if hasKeyMark msg then .abort msg else .advance (some msg)

/-- One iteration of the loop body of `tryGroqAnalysis`
(`geminiService.ts` lines 43-74) given the attempt's outcome and the current
`lastError`:
* fetch rejection → caught by the catch block (`throwPath`);
* `response.ok` (2xx) → `return await response.json()`; a malformed body
  makes `.json()` reject, which the catch block handles;
* 401/403 → `throw new Error("CRITICAL: API Key Restricted or Invalid.")`;
* 400/404 → `continue` (the catch block is bypassed, `lastError` unchanged);
* any other status → `throw new Error("Groq Error (status): errText")`. -/
def stepAttempt : Attempt → Option String → StepRes
  | .netFail msg, _ => throwPath msg
  | .resp r, last =>
    if 200 ≤ r.status ∧ r.status ≤ 299 then
      match r.jsonBody with
      | .parsed d => .done d
      | .malformed msg => throwPath msg
    else if r.status = 401 ∨ r.status = 403 then
      throwPath "CRITICAL: API Key Restricted or Invalid."
    else if r.status = 400 ∨ r.status = 404 then
      .advance last
    else
      throwPath ("Groq Error (" ++ toString r.status ++ "): " ++ r.errText)

/-- Result of the whole cascade: the first successfully parsed body, or the
thrown JS value — an `Error` message, or `none` for the literal `null` that
`throw lastError` throws when no error was ever captured. -/
inductive CascadeResult where
  | success (d : GroqData)
  | thrown (e : Option String)
deriving DecidableEq, Repr

/-- The `for (const modelName of VISION_MODELS)` loop, instrumented with the
number of fetch calls made.  `i` is the index of the next attempt (the i-th
fetch outcome is `env i`); when the model list is exhausted the function
performs `throw lastError`. -/
def cascadeLoop (env : Nat → Attempt) : Nat → List String → Option String → CascadeResult × Nat
  | _, [], last => (.thrown last, 0)
  | i, _ :: ms, last =>
    match stepAttempt (env i) last with
    | .done d => (.success d, 1)
    | .abort m => (.thrown (some m), 1)
    | .advance l =>
      ((cascadeLoop env (i + 1) ms l).1, (cascadeLoop env (i + 1) ms l).2 + 1)

/-- `tryGroqAnalysis` (`geminiService.ts` lines 39-77): iterate the model
list from the first model with `lastError = null`. -/
def tryGroqAnalysis (env : Nat → Attempt) : CascadeResult × Nat :=
  cascadeLoop env 0 VISION_MODELS none

/-- The attempt is answered with HTTP 400 or 404 (a skippable,
model-unavailable response). -/
def Skippable (a : Attempt) : Prop :=
  ∃ r, a = .resp r ∧ (r.status = 400 ∨ r.status = 404)

/-- The attempt neither returns nor aborts: whatever `lastError` is current,
the loop advances to the next model. -/
def Advances (a : Attempt) : Prop :=
  ∀ last, ∃ l, stepAttempt a last = .advance l

/-- The attempt advances and leaves `lastError` unchanged (the 400/404
`continue`, which bypasses the catch block). -/
def Skips (a : Attempt) : Prop :=
  ∀ last, stepAttempt a last = .advance last

/-- The attempt advances and overwrites `lastError` with the error whose
message is `m` (a caught throw or fetch rejection without the marker). -/
def Captures (a : Attempt) (m : String) : Prop :=
  ∀ last, stepAttempt a last = .advance (some m)

/-- Environment of one `analyzeSkinImage` call: whether `GROQ_API_KEY` is a
truthy string, the outcome of each fetch of the cascade, and the behaviour
of `JSON.parse` on the content string of the model reply. -/
structure AnalyzeEnv where
  hasKey : Bool
  attempts : Nat → Attempt
  parseContent : String → Except String SkinRecord

/-- `data.choices[0].message.content` (`geminiService.ts` line 129):
`choices[0]` on an empty array is `undefined`, so the subsequent `.message`
access throws a TypeError, which the surrounding catch receives. -/
def getContent (data : GroqData) : Except String String :=
  match data.choices with
  | [] => .error "TypeError: Cannot read properties of undefined (reading message)"
  | c :: _ => .ok c.message.content

/-- The record `{isSkin:false, isHealthy:false, diseaseName:"Error",
description:"Key Missing"}` returned when the API key is missing
(`geminiService.ts` line 82, identical in both variants): only those four
fields are present. -/
def missingKeyRecord : SkinRecord :=
  { isSkin := some false, isHealthy := some false, diseaseName := some "Error",
    description := some "Key Missing", symptoms := none, reasons := none,
    precautions := none, prevention := none, treatments := none,
    medicines := none, healingPeriod := none }

/-- The record built in the catch block of `analyzeSkinImage`
(`geminiService.ts` line 150, `part_001` line 143): `{isSkin:false,
isHealthy:false, diseaseName:"Analysis Error", description:error.message}`,
again with only four fields present. -/
def catchRecord (msg : String) : SkinRecord :=
  { isSkin := some false, isHealthy := some false,
    diseaseName := some "Analysis Error", description := some msg,
    symptoms := none, reasons := none, precautions := none, prevention := none,
    treatments := none, medicines := none, healingPeriod := none }

/-- The TypeError thrown when the catch block of `analyzeSkinImage`
evaluates `error.message` while `error` is the literal `null` (the message
text is representative; what matters is that the promise rejects). -/
def nullMessageTypeError : String :=
  "TypeError: Cannot read properties of null (reading message)"

/-- The `if (result.isSkin === false)` branch of `geminiService.ts`
(lines 133-145): force `isHealthy`, `diseaseName`, `description`, keep every
other field of the parsed reply; otherwise return the reply unchanged. -/
def normalizeG (result : SkinRecord) : SkinRecord :=
  if result.isSkin = some false then
    { result with
      isHealthy := some false,
      diseaseName := some "No Skin Detected",
      description := some "The AI could not identify human skin texture in this image. Please upload a clear, close-up photo of the affected area." }
  else result

/-- The `try` block of `analyzeSkinImage` in `geminiService.ts`
(lines 88-146): run the cascade, read `choices[0].message.content`, parse it
and normalize.  The `.error` value is the JS value thrown inside the block
(`none` = `null` thrown by an exhausted cascade). -/
def tryBlockG (env : AnalyzeEnv) : Except (Option String) SkinRecord :=
  match (tryGroqAnalysis env.attempts).1 with
  | .thrown e => .error e
  | .success data =>
    match getContent data with
    | .error msg => .error (some msg)
    | .ok content =>
      match env.parseContent content with
      | .error msg => .error (some msg)
      | .ok result => .ok (normalizeG result)

/-- `analyzeSkinImage` of `geminiService.ts` (lines 79-152).  With no key it
returns the minimal error record.  Otherwise the catch clause turns a thrown
`Error` into `catchRecord`, but when the thrown value is the literal `null`
the catch clause itself throws evaluating `error.message`, so the promise
rejects (`.error`).  `compressImage` runs before the `try` but its promise
only ever resolves (`onerror` resolves with the original string), so it
cannot reject the pipeline; its output only feeds the request payload. -/
def analyzeG (env : AnalyzeEnv) : Except String SkinRecord :=
  if env.hasKey = false then .ok missingKeyRecord
  else
    match tryBlockG env with
    | .ok r => .ok r
    | .error none => .error nullMessageTypeError
    | .error (some msg) => .ok (catchRecord msg)

/-- JS `!xs?.length`: true when the field is absent or the array is empty. -/
def lacksItems (o : Option (List Entry)) : Bool :=
  (o.getD []).isEmpty

/-- `defaultAdvice` of `part_001` (line 119). -/
def defaultAdvice : List Entry :=
  [.str "Maintain daily hygiene", .str "Use sunscreen (SPF 50)",
   .str "Drink 3L water daily"]

/-- The backfill block of `part_001` (lines 118-123): the four `if
(!result.x?.length) result.x = ...` statements.  Note that `treatments` and
`medicines` have no backfill line. -/
def backfillP1 (r : SkinRecord) : SkinRecord :=
  { r with
    symptoms := if lacksItems r.symptoms then
        some [.str "No critical symptoms detected.",
              .str "Standard skin texture observed."]
      else r.symptoms,
    reasons := if lacksItems r.reasons then
        some [.str "Genetics", .str "Environmental factors",
              .str "Lifestyle choices"]
      else r.reasons,
    precautions := if lacksItems r.precautions then some defaultAdvice
      else r.precautions,
    prevention := if lacksItems r.prevention then some defaultAdvice
      else r.prevention }

/-- The normalization of `part_001` (lines 118-138): backfill, then the
`if (result.isSkin === false)` branch, which overrides `isHealthy`,
`diseaseName`, `description` and replaces `symptoms`, `reasons`,
`precautions` with fixed literals. -/
def normalizeP1 (result : SkinRecord) : SkinRecord :=
  let r := backfillP1 result
  if r.isSkin = some false then
    { r with
      isHealthy := some false,
      diseaseName := some "No Skin Detected",
      description := some "The AI could not clearly identify human skin. This may be due to lighting, blur, or the object not being skin.",
      symptoms := some [.str "Image blur", .str "Poor lighting", .str "Non-skin object"],
      reasons := some [.str "Camera not focused", .str "Object is too far", .str "Shadows obscuring details"],
      precautions := some [.str "Use natural lighting", .str "Hold camera steady", .str "Focus on the skin area"] }
  else r

/-- The `try` block of `analyzeSkinImage` in `part_001` (lines 70-138);
identical to `tryBlockG` except for the normalization step.  (`part_001`'s
cascade differs from `geminiService.ts` only in the model-name strings and
in the credential message "CRITICAL: API Key Restricted.", which contains
the same "API Key" marker, so the control flow embedded by
`tryGroqAnalysis` is shared.) -/
def tryBlockP1 (env : AnalyzeEnv) : Except (Option String) SkinRecord :=
  match (tryGroqAnalysis env.attempts).1 with
  | .thrown e => .error e
  | .success data =>
    match getContent data with
    | .error msg => .error (some msg)
    | .ok content =>
      match env.parseContent content with
      | .error msg => .error (some msg)
      | .ok result => .ok (normalizeP1 result)

/-- `analyzeSkinImage` of `part_001` (lines 62-145): same key guard, same
catch clause (which also dereferences `error.message` and hence also throws
on a `null` error) as `geminiService.ts`. -/
def analyzeP1 (env : AnalyzeEnv) : Except String SkinRecord :=
  if env.hasKey = false then .ok missingKeyRecord
  else
    match tryBlockP1 env with
    | .ok r => .ok r
    | .error none => .error nullMessageTypeError
    | .error (some msg) => .ok (catchRecord msg)

/-- Pixel dimensions of a decoded image. -/
structure ImageDim where
  width : Nat
  height : Nat
deriving DecidableEq, Repr

/-- `Math.round` on a non-negative quantity: nearest integer, ties upward. -/
def jsRound (q : ℚ) : ℕ := ⌊q + 1 / 2⌋₊

/-- The resize arithmetic of `compressImage` (`geminiService.ts`
lines 19-29): if the natural width exceeds `maxWidth`, the canvas gets width
`maxWidth` and height `Math.round((height * maxWidth) / width)` (computed
from the original width); otherwise the original dimensions are kept. -/
def compressDims (img : ImageDim) (maxWidth : Nat) : ImageDim :=
  if maxWidth < img.width then
    { width := maxWidth,
      height := jsRound ((img.height * maxWidth : ℚ) / img.width) }
  else img

/-- The field is present and holds a non-empty array. -/
def PresentNonEmpty (o : Option (List Entry)) : Prop :=
  ∃ l, o = some l ∧ l ≠ []

/-- The record carries only the four scalar fields `isSkin`, `isHealthy`,
`diseaseName`, `description`; every guidance field is absent. -/
def OnlyCoreFields (r : SkinRecord) : Prop :=
  r.isSkin.isSome ∧ r.isHealthy.isSome ∧ r.diseaseName.isSome ∧
  r.description.isSome ∧ r.symptoms = none ∧ r.reasons = none ∧
  r.precautions = none ∧ r.prevention = none ∧ r.treatments = none ∧
  r.medicines = none ∧ r.healingPeriod = none

/-- The record structurally satisfies the declared `SkinAnalysis` interface
of `src/types.ts`: every declared field is actually present. -/
def StructurallyComplete (r : SkinRecord) : Prop :=
  r.symptoms.isSome = true ∧ r.reasons.isSome = true ∧
  r.precautions.isSome = true ∧ r.prevention.isSome = true ∧
  r.treatments.isSome = true ∧ r.medicines.isSome = true ∧
  r.healingPeriod.isSome = true

/-! ### Concrete environments used by witnesses and counterexamples -/

/-- Environment where every fetch answers HTTP 404 (every candidate model
decommissioned); used to exercise the exhausted-cascade path. -/
def envAllSkip : Nat → Attempt :=
  fun _ => .resp ⟨404, "The model has been decommissioned", .malformed "x"⟩

/-- An `analyzeSkinImage` environment with a configured key whose every
fetch answers HTTP 404. -/
def envAnalyzeAllSkip : AnalyzeEnv :=
  ⟨true, fun _ => .resp ⟨404, "The model has been decommissioned", .malformed "x"⟩,
   fun _ => .error "unreachable"⟩

/-- An `analyzeSkinImage` environment with no configured API key. -/
def envNoKey : AnalyzeEnv :=
  ⟨false, fun _ => .resp ⟨404, "", .malformed ""⟩, fun _ => .error "unreachable"⟩

/-! ### Helper lemmas: one cascade iteration -/

/-- A 2xx response with a parseable body returns its parsed data. -/
theorem step_done (r : HttpResp) (d : GroqData) (last : Option String)
    (hok : 200 ≤ r.status ∧ r.status ≤ 299) (hb : r.jsonBody = .parsed d) :
    stepAttempt (.resp r) last = .done d := by
  simp [stepAttempt, hok, hb]

/-- A 400/404 response falls through to the next model, leaving `lastError`
untouched. -/
theorem step_skip (r : HttpResp) (h : r.status = 400 ∨ r.status = 404)
    (last : Option String) : stepAttempt (.resp r) last = .advance last := by
  have hnok : ¬(200 ≤ r.status ∧ r.status ≤ 299) := by rcases h with h | h <;> omega
  have hncred : ¬(r.status = 401 ∨ r.status = 403) := by rcases h with h | h <;> omega
  simp [stepAttempt, hnok, hncred, h]

/-- A 401/403 response aborts the cascade with the credential error. -/
theorem step_cred (r : HttpResp) (h : r.status = 401 ∨ r.status = 403)
    (last : Option String) :
    stepAttempt (.resp r) last = .abort "CRITICAL: API Key Restricted or Invalid." := by
  have hnok : ¬(200 ≤ r.status ∧ r.status ≤ 299) := by rcases h with h | h <;> omega
  have hkm : hasKeyMark "CRITICAL: API Key Restricted or Invalid." = true := by decide
  simp [stepAttempt, hnok, h, throwPath, hkm]

/-- An unclassified non-success status is thrown, caught by the iteration's
own catch, and (when its message lacks the "API Key" marker) the loop
advances with `lastError` set to that error. -/
theorem step_unclassified (r : HttpResp) (last : Option String)
    (hnok : ¬(200 ≤ r.status ∧ r.status ≤ 299))
    (h400 : r.status ≠ 400) (h401 : r.status ≠ 401)
    (h403 : r.status ≠ 403) (h404 : r.status ≠ 404)
    (hkm : hasKeyMark ("Groq Error (" ++ toString r.status ++ "): " ++ r.errText) = false) :
    stepAttempt (.resp r) last =
      .advance (some ("Groq Error (" ++ toString r.status ++ "): " ++ r.errText)) := by
  have hncred : ¬(r.status = 401 ∨ r.status = 403) := by omega
  have hnskip : ¬(r.status = 400 ∨ r.status = 404) := by omega
  simp [stepAttempt, hnok, hncred, hnskip, throwPath, hkm]

/-! ### Helper lemmas: the loop -/

theorem loop_done (env : Nat → Attempt) (i : Nat) (m : String) (ms : List String)
    (last : Option String) (d : GroqData)
    (h : stepAttempt (env i) last = .done d) :
    cascadeLoop env i (m :: ms) last = (.success d, 1) := by
  simp [cascadeLoop, h]

theorem loop_abort (env : Nat → Attempt) (i : Nat) (m : String) (ms : List String)
    (last : Option String) (e : String)
    (h : stepAttempt (env i) last = .abort e) :
    cascadeLoop env i (m :: ms) last = (.thrown (some e), 1) := by
  simp [cascadeLoop, h]

theorem loop_advance (env : Nat → Attempt) (i : Nat) (m : String) (ms : List String)
    (last l : Option String)
    (h : stepAttempt (env i) last = .advance l) :
    cascadeLoop env i (m :: ms) last =
      ((cascadeLoop env (i + 1) ms l).1, (cascadeLoop env (i + 1) ms l).2 + 1) := by
  simp [cascadeLoop, h]

/-- Entering the loop with at least one candidate makes at least one fetch. -/
theorem loop_pos (env : Nat → Attempt) (i : Nat) (m : String) (ms : List String)
    (last : Option String) : 1 ≤ (cascadeLoop env i (m :: ms) last).2 := by
  cases h : stepAttempt (env i) last <;> simp [cascadeLoop, h]

/-- A skippable (400/404) attempt advances with `lastError` unchanged. -/
theorem skippable_skips (a : Attempt) (h : Skippable a) : Skips a := by
  obtain ⟨r, rfl, hs⟩ := h
  intro last
  exact step_skip r hs last

/-! ### C3: in-order cascade, 400/404 advance, first success wins -/

/-- Claim C3: the cascade attempts candidates in list order; when every
attempt before position `i` is answered 400/404 and attempt `i` is a
success whose body parses, the cascade resolves with attempt `i`'s parsed
body after exactly `i + 1` fetches, so no later candidate is contacted and
no model is attempted twice. -/
theorem tryGroq_first_success (env : Nat → Attempt) (i : Nat) (r : HttpResp)
    (d : GroqData) (hi : i < VISION_MODELS.length)
    (hskip : ∀ j, j < i → Skippable (env j))
    (henv : env i = .resp r)
    (hok : 200 ≤ r.status ∧ r.status ≤ 299)
    (hbody : r.jsonBody = .parsed d) :
    tryGroqAnalysis env = (.success d, i + 1) := by
  have h3 : i < 3 := by simpa [VISION_MODELS] using hi
  interval_cases i
  · have s0 : stepAttempt (env 0) none = .done d := by
      rw [henv]; exact step_done r d none hok hbody
    unfold tryGroqAnalysis VISION_MODELS
    rw [loop_done env 0 _ _ none d s0]
  · obtain ⟨r0, he0, hs0⟩ := hskip 0 (by omega)
    have s0 : stepAttempt (env 0) none = .advance none := by
      rw [he0]; exact step_skip r0 hs0 none
    have s1 : stepAttempt (env 1) none = .done d := by
      rw [henv]; exact step_done r d none hok hbody
    unfold tryGroqAnalysis VISION_MODELS
    rw [loop_advance env 0 _ _ none none s0, loop_done env 1 _ _ none d s1]
  · obtain ⟨r0, he0, hs0⟩ := hskip 0 (by omega)
    obtain ⟨r1, he1, hs1⟩ := hskip 1 (by omega)
    have s0 : stepAttempt (env 0) none = .advance none := by
      rw [he0]; exact step_skip r0 hs0 none
    have s1 : stepAttempt (env 1) none = .advance none := by
      rw [he1]; exact step_skip r1 hs1 none
    have s2 : stepAttempt (env 2) none = .done d := by
      rw [henv]; exact step_done r d none hok hbody
    unfold tryGroqAnalysis VISION_MODELS
    rw [loop_advance env 0 _ _ none none s0, loop_advance env 1 _ _ none none s1,
      loop_done env 2 _ _ none d s2]

def rSkip404 : HttpResp := ⟨404, "model not found", .malformed "x"⟩

def dataC3 : GroqData := ⟨[⟨⟨"analysis json"⟩⟩]⟩

def envC3 : Nat → Attempt :=
  fun i => if i = 0 then .resp rSkip404 else .resp ⟨200, "", .parsed dataC3⟩

/-- Witness for C3: first model 404, second model 200 — the result is the
second model's body and the third model is never contacted. -/
theorem tryGroq_first_success_witness :
    Skippable (envC3 0) ∧ tryGroqAnalysis envC3 = (.success dataC3, 2) :=
  ⟨⟨rSkip404, rfl, Or.inr rfl⟩,
   tryGroq_first_success envC3 1 ⟨200, "", .parsed dataC3⟩ dataC3 (by decide)
     (by
       intro j hj
       interval_cases j
       exact ⟨rSkip404, rfl, Or.inr rfl⟩)
     rfl (by decide) rfl⟩

/-! ### C4: 401/403 aborts the whole cascade -/

/-- Claim C4: when the cascade reaches attempt `i` (every earlier attempt
advanced) and attempt `i` is answered 401 or 403, the whole cascade fails
at once with the credential error after exactly `i + 1` fetches: no
subsequent candidate is contacted. -/
theorem tryGroq_credential_fatal (env : Nat → Attempt) (i : Nat) (r : HttpResp)
    (hi : i < VISION_MODELS.length)
    (hadv : ∀ j, j < i → Advances (env j))
    (henv : env i = .resp r)
    (hcred : r.status = 401 ∨ r.status = 403) :
    tryGroqAnalysis env =
      (.thrown (some "CRITICAL: API Key Restricted or Invalid."), i + 1) := by
  have h3 : i < 3 := by simpa [VISION_MODELS] using hi
  interval_cases i
  · have s0 : stepAttempt (env 0) none = .abort "CRITICAL: API Key Restricted or Invalid." := by
      rw [henv]; exact step_cred r hcred none
    unfold tryGroqAnalysis VISION_MODELS
    rw [loop_abort env 0 _ _ none _ s0]
  · obtain ⟨l0, s0⟩ := hadv 0 (by omega) none
    have s1 : stepAttempt (env 1) l0 = .abort "CRITICAL: API Key Restricted or Invalid." := by
      rw [henv]; exact step_cred r hcred l0
    unfold tryGroqAnalysis VISION_MODELS
    rw [loop_advance env 0 _ _ none l0 s0, loop_abort env 1 _ _ l0 _ s1]
  · obtain ⟨l0, s0⟩ := hadv 0 (by omega) none
    obtain ⟨l1, s1⟩ := hadv 1 (by omega) l0
    have s2 : stepAttempt (env 2) l1 = .abort "CRITICAL: API Key Restricted or Invalid." := by
      rw [henv]; exact step_cred r hcred l1
    unfold tryGroqAnalysis VISION_MODELS
    rw [loop_advance env 0 _ _ none l0 s0, loop_advance env 1 _ _ l0 l1 s1,
      loop_abort env 2 _ _ l1 _ s2]

def envC4 : Nat → Attempt :=
  fun i => if i = 0 then .resp rSkip404 else .resp ⟨401, "invalid api key", .malformed "x"⟩

/-- Witness for C4: first model 404, second model 401 — the cascade aborts
with the credential error after two fetches; the third model is never
contacted. -/
theorem tryGroq_credential_fatal_witness :
    tryGroqAnalysis envC4 =
      (.thrown (some "CRITICAL: API Key Restricted or Invalid."), 2) :=
  tryGroq_credential_fatal envC4 1 ⟨401, "invalid api key", .malformed "x"⟩ (by decide)
    (by
      intro j hj
      interval_cases j
      intro last
      exact ⟨last, step_skip rSkip404 (Or.inr rfl) last⟩)
    rfl (Or.inl rfl)

/-! ### C5: unclassified statuses do NOT abort the cascade -/

def envC5 : Nat → Attempt :=
  fun i => if i = 0 then .resp ⟨500, "internal error", .malformed "x"⟩
    else .resp ⟨200, "", .parsed ⟨[⟨⟨"analysis json"⟩⟩]⟩⟩

/-- Counterexample to claim C5: the first model answers HTTP 500 (an
unclassified non-success status, message without the "API Key" marker), yet
the cascade does not abort — it contacts the second model and succeeds with
its body after two fetches.  The thrown `Groq Error (500)` is caught by the
iteration's own catch block and only recorded as `lastError`. -/
theorem tryGroq_unclassified_continues_cex :
    tryGroqAnalysis envC5 = (.success ⟨[⟨⟨"analysis json"⟩⟩]⟩, 2) ∧
    (tryGroqAnalysis envC5).2 ≠ 1 := by
  constructor
  · rfl
  · decide

/-- Claim C5 as amended: an attempt answered with a non-success status other
than 400/401/403/404 throws `Groq Error (status)`, which the iteration's own
catch captures as `lastError`; unless that message contains "API Key" the
cascade then advances, continuing from the next candidate with the error
recorded — at least one further candidate is contacted. -/
theorem tryGroq_unclassified_advances (env : Nat → Attempt) (i : Nat) (r : HttpResp)
    (hi : i + 1 < VISION_MODELS.length)
    (hadv : ∀ j, j < i → Advances (env j))
    (henv : env i = .resp r)
    (hnok : ¬(200 ≤ r.status ∧ r.status ≤ 299))
    (h400 : r.status ≠ 400) (h401 : r.status ≠ 401)
    (h403 : r.status ≠ 403) (h404 : r.status ≠ 404)
    (hkm : hasKeyMark ("Groq Error (" ++ toString r.status ++ "): " ++ r.errText) = false) :
    tryGroqAnalysis env =
      ((cascadeLoop env (i + 1) (VISION_MODELS.drop (i + 1))
          (some ("Groq Error (" ++ toString r.status ++ "): " ++ r.errText))).1,
       (cascadeLoop env (i + 1) (VISION_MODELS.drop (i + 1))
          (some ("Groq Error (" ++ toString r.status ++ "): " ++ r.errText))).2 + (i + 1)) ∧
    i + 2 ≤ (tryGroqAnalysis env).2 := by
  have h2 : i < 2 := by
    have : i + 1 < 3 := by simpa [VISION_MODELS] using hi
    omega
  interval_cases i
  · have s0 : stepAttempt (env 0) none =
        .advance (some ("Groq Error (" ++ toString r.status ++ "): " ++ r.errText)) := by
      rw [henv]; exact step_unclassified r none hnok h400 h401 h403 h404 hkm
    have key : tryGroqAnalysis env =
        ((cascadeLoop env 1 (VISION_MODELS.drop 1)
            (some ("Groq Error (" ++ toString r.status ++ "): " ++ r.errText))).1,
         (cascadeLoop env 1 (VISION_MODELS.drop 1)
            (some ("Groq Error (" ++ toString r.status ++ "): " ++ r.errText))).2 + 1) := by
      unfold tryGroqAnalysis VISION_MODELS
      rw [loop_advance env 0 _ _ none _ s0]
      rfl
    refine ⟨key, ?_⟩
    rw [key]
    have hp := loop_pos env 1 "meta-llama/llama-4-scout-17b-16e-instruct"
      ["llama-3.2-11b-vision-preview"]
      (some ("Groq Error (" ++ toString r.status ++ "): " ++ r.errText))
    have hdrop : VISION_MODELS.drop 1 =
        "meta-llama/llama-4-scout-17b-16e-instruct" :: ["llama-3.2-11b-vision-preview"] := rfl
    rw [hdrop]
    omega
  · obtain ⟨l0, s0⟩ := hadv 0 (by omega) none
    have s1 : stepAttempt (env 1) l0 =
        .advance (some ("Groq Error (" ++ toString r.status ++ "): " ++ r.errText)) := by
      rw [henv]; exact step_unclassified r l0 hnok h400 h401 h403 h404 hkm
    have key : tryGroqAnalysis env =
        ((cascadeLoop env 2 (VISION_MODELS.drop 2)
            (some ("Groq Error (" ++ toString r.status ++ "): " ++ r.errText))).1,
         (cascadeLoop env 2 (VISION_MODELS.drop 2)
            (some ("Groq Error (" ++ toString r.status ++ "): " ++ r.errText))).2 + 2) := by
      unfold tryGroqAnalysis VISION_MODELS
      rw [loop_advance env 0 _ _ none l0 s0, loop_advance env 1 _ _ l0 _ s1]
      rfl
    refine ⟨key, ?_⟩
    rw [key]
    have hp := loop_pos env 2 "llama-3.2-11b-vision-preview" []
      (some ("Groq Error (" ++ toString r.status ++ "): " ++ r.errText))
    have hdrop : VISION_MODELS.drop 2 = "llama-3.2-11b-vision-preview" :: [] := rfl
    rw [hdrop]
    omega

/-- Witness for the amended C5: with a 500 on the first model, the cascade
continues from the second candidate carrying `Groq Error (500)` as the last
error, and makes at least two fetches. -/
theorem tryGroq_unclassified_advances_witness :
    tryGroqAnalysis envC5 =
      ((cascadeLoop envC5 1 (VISION_MODELS.drop 1)
          (some ("Groq Error (" ++ toString (500 : Nat) ++ "): " ++ "internal error"))).1,
       (cascadeLoop envC5 1 (VISION_MODELS.drop 1)
          (some ("Groq Error (" ++ toString (500 : Nat) ++ "): " ++ "internal error"))).2 + 1) ∧
    2 ≤ (tryGroqAnalysis envC5).2 :=
  tryGroq_unclassified_advances envC5 0 ⟨500, "internal error", .malformed "x"⟩
    (by decide) (by intro j hj; omega) rfl (by decide)
    (by decide) (by decide) (by decide) (by decide) (by decide)

/-! ### C6: exhaustion throws the last captured error — or null -/

/-- Counterexample to claim C6: with every candidate answering HTTP 404,
the cascade exhausts all three models without ever assigning `lastError`
(the 400/404 `continue` bypasses the catch block), and `throw lastError`
throws the initial `null` — exactly the generic empty error the claim rules
out. -/
theorem tryGroq_exhaustion_null_cex :
    tryGroqAnalysis envAllSkip = (.thrown none, 3) := by
  decide

/-- Claim C6 as amended: when the cascade exhausts all candidates, it fails
with the most recently *captured* error, where only caught throws and fetch
rejections are captured (400/404 skips record nothing): if attempt `k`
captured the error `m` and every later attempt was a 400/404 skip, the
cascade fails with `m` after all three fetches.  (When no attempt captured
anything the thrown value is the initial null, per the counterexample.) -/
theorem tryGroq_exhaustion_last_captured (env : Nat → Attempt) (m : String) (k : Nat)
    (hk : k < VISION_MODELS.length)
    (hpre : ∀ j, j < k → Advances (env j))
    (hcap : Captures (env k) m)
    (hpost : ∀ j, k < j → j < VISION_MODELS.length → Skips (env j)) :
    tryGroqAnalysis env = (.thrown (some m), 3) := by
  have h3 : k < 3 := by simpa [VISION_MODELS] using hk
  have hlen : VISION_MODELS.length = 3 := by decide
  interval_cases k
  · have s0 := hcap none
    have s1 := hpost 1 (by omega) (by omega) (some m)
    have s2 := hpost 2 (by omega) (by omega) (some m)
    unfold tryGroqAnalysis VISION_MODELS
    rw [loop_advance env 0 _ _ none _ s0, loop_advance env 1 _ _ _ _ s1,
      loop_advance env 2 _ _ _ _ s2]
    rfl
  · obtain ⟨l0, s0⟩ := hpre 0 (by omega) none
    have s1 := hcap l0
    have s2 := hpost 2 (by omega) (by omega) (some m)
    unfold tryGroqAnalysis VISION_MODELS
    rw [loop_advance env 0 _ _ none l0 s0, loop_advance env 1 _ _ _ _ s1,
      loop_advance env 2 _ _ _ _ s2]
    rfl
  · obtain ⟨l0, s0⟩ := hpre 0 (by omega) none
    obtain ⟨l1, s1⟩ := hpre 1 (by omega) l0
    have s2 := hcap l1
    unfold tryGroqAnalysis VISION_MODELS
    rw [loop_advance env 0 _ _ none l0 s0, loop_advance env 1 _ _ l0 l1 s1,
      loop_advance env 2 _ _ _ _ s2]
    rfl

def envC6 : Nat → Attempt :=
  fun i => if i = 0 then .netFail "network timeout" else .resp rSkip404

/-- Witness for the amended C6: the first attempt is a network failure
(captured as the last error), the remaining two are 404 skips; the cascade
fails with the captured network error after three fetches. -/
theorem tryGroq_exhaustion_last_captured_witness :
    tryGroqAnalysis envC6 = (.thrown (some "network timeout"), 3) :=
  tryGroq_exhaustion_last_captured envC6 "network timeout" 0 (by decide)
    (by intro j hj; omega)
    (by intro last; rfl)
    (by
      intro j hj1 hj2 last
      have hlen : VISION_MODELS.length = 3 := by decide
      rw [hlen] at hj2
      interval_cases j <;> exact step_skip rSkip404 (Or.inr rfl) last)

/-! ### C1: analyzeSkinImage can actually reject -/

/-- Claim C1 is violated (code bug): when every model attempt is answered
HTTP 404, the cascade exhausts without ever assigning `lastError` and
performs `throw lastError` with the initial `null`; the catch block of
`analyzeSkinImage` then evaluates `error.message` on `null`, which itself
throws a TypeError inside the catch, so the promise rejects instead of
resolving to a `SkinAnalysis`. -/
theorem analyzeG_rejects_on_all_skips :
    analyzeG envAnalyzeAllSkip = .error nullMessageTypeError := by
  rfl

/-! ### C2: the isSkin=false invariant -/

/-- Counterexample to claim C2: the missing-credential path returns a record
with `isSkin = false` whose `reasons` and `precautions` fields are entirely
absent — not non-empty sequences. -/
theorem analyzeG_missing_key_reasons_absent_cex :
    analyzeG envNoKey = .ok missingKeyRecord ∧
    missingKeyRecord.isSkin = some false ∧
    missingKeyRecord.reasons = none ∧ missingKeyRecord.precautions = none :=
  ⟨rfl, rfl, rfl, rfl⟩

/-- Every `.ok` value of the try block of `geminiService.ts` is the
normalization of some parsed reply. -/
theorem tryBlockG_ok (env : AnalyzeEnv) (r : SkinRecord)
    (h : tryBlockG env = .ok r) : ∃ x, r = normalizeG x := by
  unfold tryBlockG at h
  split at h
  · exact absurd h (by simp)
  · split at h
    · exact absurd h (by simp)
    · split at h
      · exact absurd h (by simp)
      · simp only [Except.ok.injEq] at h
        exact ⟨_, h.symm⟩

/-- The normalization of `geminiService.ts` forces `isHealthy = false`
whenever the record it produces has `isSkin = false`. -/
theorem normalizeG_unhealthy (x : SkinRecord)
    (hs : (normalizeG x).isSkin = some false) :
    (normalizeG x).isHealthy = some false := by
  unfold normalizeG at hs ⊢
  by_cases hx : x.isSkin = some false
  · rw [if_pos hx]
  · rw [if_neg hx] at hs
    exact absurd hs hx

/-- Claim C2 as amended: in every record `analyzeSkinImage` returns,
`isSkin = false` still forces `isHealthy = false` on every path; but the
non-emptiness of `reasons`/`precautions` does not hold — those fields are
absent on the missing-credential and caught-error records (see the
counterexample and C10) and the `geminiService.ts` rejection branch keeps
whatever the model supplied. -/
theorem analyzeG_isSkin_false_forces_unhealthy (env : AnalyzeEnv) (r : SkinRecord)
    (h : analyzeG env = .ok r) (hskin : r.isSkin = some false) :
    r.isHealthy = some false := by
  unfold analyzeG at h
  by_cases hk : env.hasKey = false
  · rw [if_pos hk] at h
    simp only [Except.ok.injEq] at h
    rw [← h]
    rfl
  · rw [if_neg hk] at h
    cases htb : tryBlockG env with
    | error e =>
      rw [htb] at h
      cases e with
      | none => exact absurd h (by simp)
      | some msg =>
        simp only [Except.ok.injEq] at h
        rw [← h]
        rfl
    | ok r' =>
      rw [htb] at h
      simp only [Except.ok.injEq] at h
      obtain ⟨x, hx⟩ := tryBlockG_ok env r' htb
      rw [← h, hx]
      rw [← h, hx] at hskin
      exact normalizeG_unhealthy x hskin

/-- Witness for the amended C2: the missing-credential record has
`isSkin = false`, and the theorem yields `isHealthy = false` for it. -/
theorem analyzeG_isSkin_false_forces_unhealthy_witness :
    analyzeG envNoKey = .ok missingKeyRecord ∧
    missingKeyRecord.isHealthy = some false :=
  ⟨rfl, analyzeG_isSkin_false_forces_unhealthy envNoKey missingKeyRecord rfl rfl⟩

/-! ### C7: treatments is not backfilled -/

/-- A well-formed reply with healthy-path `isSkin = true` whose
`treatments` array is empty (and whose `precautions` array is empty too). -/
def replyC7 : SkinRecord :=
  { isSkin := some true, isHealthy := some true,
    diseaseName := some "Cystic Acne", description := some "inflamed skin",
    symptoms := some [.str "redness"], reasons := some [.str "hormones"],
    precautions := some [], prevention := some [.str "avoid touching"],
    treatments := some [], medicines := some [], healingPeriod := some "2 weeks" }

def envC7 : AnalyzeEnv :=
  ⟨true, fun _ => .resp ⟨200, "", .parsed ⟨[⟨⟨"replyC7"⟩⟩]⟩⟩,
   fun s => if s = "replyC7" then .ok replyC7 else .error "bad json"⟩

/-- The record `part_001` returns for `replyC7`: `precautions` is backfilled
with the generic advice, but `treatments` stays an empty array — the
backfill block has no line for `treatments`. -/
def outC7 : SkinRecord :=
  { isSkin := some true, isHealthy := some true,
    diseaseName := some "Cystic Acne", description := some "inflamed skin",
    symptoms := some [.str "redness"], reasons := some [.str "hormones"],
    precautions := some defaultAdvice, prevention := some [.str "avoid touching"],
    treatments := some [], medicines := some [], healingPeriod := some "2 weeks" }

/-- Claim C7 is violated (code bug): on a model reply with `isSkin = true`
and an empty `treatments` array, `analyzeSkinImage` of `part_001` returns
the record with `treatments` still empty, although its own backfill comment
promises to ensure arrays are never empty (it covers `symptoms`, `reasons`,
`precautions`, `prevention` but omits `treatments`; the `geminiService.ts`
variant applies no backfill at all). -/
theorem analyzeP1_treatments_not_backfilled :
    analyzeP1 envC7 = .ok outC7 ∧ outC7.isSkin = some true ∧
    outC7.treatments = some [] ∧ outC7.precautions = some defaultAdvice :=
  ⟨rfl, rfl, rfl, rfl⟩

/-! ### C8: round-trip preservation of model-provided arrays -/

/-- A well-formed reply with `isSkin = false` and every guidance array
present and non-empty. -/
def replyC8 : SkinRecord :=
  { isSkin := some false, isHealthy := some false,
    diseaseName := some "not skin", description := some "a wall",
    symptoms := some [.str "model symptom"], reasons := some [.str "model reason"],
    precautions := some [.str "model precaution"],
    prevention := some [.str "model prevention"],
    treatments := some [.str "model treatment"],
    medicines := some [.str "model medicine"], healingPeriod := some "n/a" }

def envC8 : AnalyzeEnv :=
  ⟨true, fun _ => .resp ⟨200, "", .parsed ⟨[⟨⟨"replyC8"⟩⟩]⟩⟩,
   fun s => if s = "replyC8" then .ok replyC8 else .error "bad json"⟩

/-- What `part_001` actually returns for `replyC8`: the non-skin branch
replaces the model's `symptoms`, `reasons` and `precautions` with fixed
literals. -/
def outC8 : SkinRecord :=
  { isSkin := some false, isHealthy := some false,
    diseaseName := some "No Skin Detected",
    description := some "The AI could not clearly identify human skin. This may be due to lighting, blur, or the object not being skin.",
    symptoms := some [.str "Image blur", .str "Poor lighting", .str "Non-skin object"],
    reasons := some [.str "Camera not focused", .str "Object is too far", .str "Shadows obscuring details"],
    precautions := some [.str "Use natural lighting", .str "Hold camera steady", .str "Focus on the skin area"],
    prevention := some [.str "model prevention"],
    treatments := some [.str "model treatment"],
    medicines := some [.str "model medicine"], healingPeriod := some "n/a" }

/-- Counterexample to claim C8: a well-formed reply whose five guidance
arrays are all non-empty is NOT left unmodified by parsing-then-normalizing
in `part_001` when `isSkin = false`: the rejection branch overwrites the
model-provided `symptoms`, `reasons` and `precautions`. -/
theorem analyzeP1_rejection_overwrites_cex :
    analyzeP1 envC8 = .ok outC8 ∧
    outC8.symptoms ≠ replyC8.symptoms ∧
    outC8.reasons ≠ replyC8.reasons ∧
    outC8.precautions ≠ replyC8.precautions :=
  ⟨rfl, by decide, by decide, by decide⟩

/-- A present non-empty field does not trip the `!x?.length` test. -/
theorem lacksItems_of_presentNonEmpty (o : Option (List Entry))
    (h : PresentNonEmpty o) : lacksItems o = false := by
  obtain ⟨l, rfl, hl⟩ := h
  cases l with
  | nil => exact absurd rfl hl
  | cons a as => rfl

/-- Claim C8 as amended: for a well-formed reply with `isSkin = true` whose
`symptoms`, `reasons`, `precautions`, `prevention` and `treatments` are all
present and non-empty, parsing then normalizing in `part_001` leaves each of
those arrays unmodified (the backfill only fires on empty or absent fields;
when `isSkin = false` the rejection branch overwrites them instead, per the
counterexample). -/
theorem analyzeP1_roundtrip_preserves (env : AnalyzeEnv) (reply : SkinRecord)
    (data : GroqData) (c : String)
    (hkey : env.hasKey = true)
    (hcas : (tryGroqAnalysis env.attempts).1 = .success data)
    (hc : getContent data = .ok c)
    (hp : env.parseContent c = .ok reply)
    (hskin : reply.isSkin = some true)
    (h1 : PresentNonEmpty reply.symptoms) (h2 : PresentNonEmpty reply.reasons)
    (h3 : PresentNonEmpty reply.precautions) (h4 : PresentNonEmpty reply.prevention)
    (h5 : PresentNonEmpty reply.treatments) :
    analyzeP1 env = .ok (normalizeP1 reply) ∧
    (normalizeP1 reply).symptoms = reply.symptoms ∧
    (normalizeP1 reply).reasons = reply.reasons ∧
    (normalizeP1 reply).precautions = reply.precautions ∧
    (normalizeP1 reply).prevention = reply.prevention ∧
    (normalizeP1 reply).treatments = reply.treatments := by
  have hbf : backfillP1 reply = reply := by
    unfold backfillP1
    rw [lacksItems_of_presentNonEmpty _ h1, lacksItems_of_presentNonEmpty _ h2,
      lacksItems_of_presentNonEmpty _ h3, lacksItems_of_presentNonEmpty _ h4]
    simp
  have hnorm : normalizeP1 reply = reply := by
    unfold normalizeP1
    rw [hbf]
    rw [if_neg (by rw [hskin]; simp)]
  have htb : tryBlockP1 env = .ok (normalizeP1 reply) := by
    unfold tryBlockP1
    rw [hcas]
    simp only [hc, hp]
  have hrun : analyzeP1 env = .ok (normalizeP1 reply) := by
    unfold analyzeP1
    rw [if_neg (by rw [hkey]; simp), htb]
  exact ⟨hrun, by rw [hnorm], by rw [hnorm], by rw [hnorm], by rw [hnorm], by rw [hnorm]⟩

/-- A well-formed reply with `isSkin = true` and every guidance array
present and non-empty. -/
def replyC8w : SkinRecord :=
  { isSkin := some true, isHealthy := some false,
    diseaseName := some "Eczema", description := some "dry patches",
    symptoms := some [.str "itching"], reasons := some [.str "dry air"],
    precautions := some [.str "moisturize"], prevention := some [.str "humidifier"],
    treatments := some [.str "emollient"], medicines := some [.str "cortisone"],
    healingPeriod := some "3 weeks" }

def envC8w : AnalyzeEnv :=
  ⟨true, fun _ => .resp ⟨200, "", .parsed ⟨[⟨⟨"replyC8w"⟩⟩]⟩⟩,
   fun s => if s = "replyC8w" then .ok replyC8w else .error "bad json"⟩

/-- Witness for the amended C8: a concrete skin reply with non-empty arrays
round-trips unmodified through `part_001`. -/
theorem analyzeP1_roundtrip_preserves_witness :
    analyzeP1 envC8w = .ok (normalizeP1 replyC8w) ∧
    (normalizeP1 replyC8w).symptoms = replyC8w.symptoms ∧
    (normalizeP1 replyC8w).reasons = replyC8w.reasons ∧
    (normalizeP1 replyC8w).precautions = replyC8w.precautions ∧
    (normalizeP1 replyC8w).prevention = replyC8w.prevention ∧
    (normalizeP1 replyC8w).treatments = replyC8w.treatments :=
  analyzeP1_roundtrip_preserves envC8w replyC8w ⟨[⟨⟨"replyC8w"⟩⟩]⟩ "replyC8w"
    rfl rfl rfl rfl rfl
    ⟨[.str "itching"], rfl, by decide⟩ ⟨[.str "dry air"], rfl, by decide⟩
    ⟨[.str "moisturize"], rfl, by decide⟩ ⟨[.str "humidifier"], rfl, by decide⟩
    ⟨[.str "emollient"], rfl, by decide⟩

/-! ### C9: the resize rule of compressImage -/

/-- Claim C9: for a decodable image, when the natural width exceeds
`maxWidth` the output dimensions are width exactly `maxWidth` and height
`Math.round(height * maxWidth / width)` — which equals the integer
`(2 * h * maxW + w) / (2 * w)` (round half up of the exact ratio); when the
width is at most `maxWidth` the original dimensions are kept. -/
theorem compress_resize_rule (w h maxW : Nat) :
    (maxW < w → compressDims ⟨w, h⟩ maxW =
      ⟨maxW, (2 * h * maxW + w) / (2 * w)⟩) ∧
    (w ≤ maxW → compressDims ⟨w, h⟩ maxW = ⟨w, h⟩) := by
  constructor
  · intro hlt
    have hw : (0 : ℚ) < (w : ℚ) := by
      have : 0 < w := by omega
      exact_mod_cast this
    unfold compressDims
    rw [if_pos hlt]
    have hq : ((h : ℚ) * (maxW : ℚ)) / (w : ℚ) + 1 / 2 =
        (((2 * h * maxW + w : Nat) : ℚ)) / (((2 * w : Nat) : ℚ)) := by
      push_cast
      field_simp
      ring
    have hval : jsRound ((h * maxW : ℚ) / w) = (2 * h * maxW + w) / (2 * w) := by
      rw [jsRound]
      rw [hq, Nat.floor_div_nat, Nat.floor_natCast]
    rw [hval]
  · intro hle
    unfold compressDims
    rw [if_neg (by simp; omega)]

/-- Witness for C9: a 2048x1536 image with `maxWidth = 1024` comes out
exactly 1024x768, and an 800x600 image is left unchanged. -/
theorem compress_resize_rule_witness :
    (1024 < 2048 ∧ compressDims ⟨2048, 1536⟩ 1024 = ⟨1024, 768⟩) ∧
    (800 ≤ 1024 ∧ compressDims ⟨800, 600⟩ 1024 = ⟨800, 600⟩) := by
  refine ⟨⟨by norm_num, ?_⟩, ⟨by norm_num, ?_⟩⟩
  · rw [(compress_resize_rule 2048 1536 1024).1 (by norm_num)]
  · exact (compress_resize_rule 800 600 1024).2 (by norm_num)

/-! ### C10: fallback records carry only the four scalar fields -/

/-- Claim C10: the missing-credential record and the caught-error record of
`geminiService.ts` and `part_001` contain only `isSkin`, `isHealthy`,
`diseaseName`, `description`; the seven guidance fields are entirely absent,
so neither record structurally satisfies the declared `SkinAnalysis`
shape. -/
theorem fallback_records_core_only (envA envB : AnalyzeEnv) (msg : String) (n : Nat)
    (hA : envA.hasKey = false)
    (hB : envB.hasKey = true)
    (hBc : tryGroqAnalysis envB.attempts = (.thrown (some msg), n)) :
    analyzeG envA = .ok missingKeyRecord ∧
    analyzeG envB = .ok (catchRecord msg) ∧
    analyzeP1 envB = .ok (catchRecord msg) ∧
    OnlyCoreFields missingKeyRecord ∧ OnlyCoreFields (catchRecord msg) ∧
    ¬ StructurallyComplete missingKeyRecord ∧
    ¬ StructurallyComplete (catchRecord msg) := by
  have hB1 : (tryGroqAnalysis envB.attempts).1 = .thrown (some msg) := by rw [hBc]
  have htbG : tryBlockG envB = .error (some msg) := by
    unfold tryBlockG
    rw [hB1]
  have htbP : tryBlockP1 envB = .error (some msg) := by
    unfold tryBlockP1
    rw [hB1]
  refine ⟨?_, ?_, ?_, ?_, ?_, ?_, ?_⟩
  · unfold analyzeG
    rw [if_pos hA]
  · unfold analyzeG
    rw [if_neg (by rw [hB]; simp), htbG]
  · unfold analyzeP1
    rw [if_neg (by rw [hB]; simp), htbP]
  · exact ⟨rfl, rfl, rfl, rfl, rfl, rfl, rfl, rfl, rfl, rfl, rfl⟩
  · exact ⟨rfl, rfl, rfl, rfl, rfl, rfl, rfl, rfl, rfl, rfl, rfl⟩
  · intro hsc
    exact absurd hsc.1 (by decide)
  · intro hsc
    simpa [catchRecord] using hsc.1

def envC10b : AnalyzeEnv :=
  ⟨true, fun _ => .netFail "network down", fun _ => .error "unreachable"⟩

/-- Witness for C10: with no key configured, `analyzeSkinImage` returns the
four-field missing-key record; with a key but an all-failing network it
returns the four-field catch record. -/
theorem fallback_records_core_only_witness :
    analyzeG envNoKey = .ok missingKeyRecord ∧
    analyzeG envC10b = .ok (catchRecord "network down") ∧
    analyzeP1 envC10b = .ok (catchRecord "network down") ∧
    ¬ StructurallyComplete missingKeyRecord :=
  ⟨(fallback_records_core_only envNoKey envC10b "network down" 3 rfl rfl rfl).1,
   (fallback_records_core_only envNoKey envC10b "network down" 3 rfl rfl rfl).2.1,
   (fallback_records_core_only envNoKey envC10b "network down" 3 rfl rfl rfl).2.2.1,
   (fallback_records_core_only envNoKey envC10b "network down" 3 rfl rfl rfl).2.2.2.2.2.1⟩

end DermaAssist
